import Mathlib

/-!
Verification development for the movie domain model and its mock
datastore (go-api-basic).  The repository's own files provide the movie
package's tests (`movie_test.go`), the mock movie datastore
(`mockMovieDatastore.go`) and the handler-level mocks
(`movieHandler_test.go`).  The movie package itself (struct `Movie`,
`NewMovie`, the setters and `IsValid`) is not among the staged files, so
those operations are modelled from the specification; the mock datastore
operations are translated directly from `mockMovieDatastore.go` and
`movieHandler_test.go`.

Conventions of the embedding:
* Go `time.Time` is modelled as `GoTime := Int`, nanoseconds since
  0001-01-01T00:00:00 UTC (the zero `time.Time`), so the zero value is `0`.
* `uuid.UUID` is modelled as `UUID := Nat` with the nil UUID as `0`.
* `time.Now()` is an effect: every operation that reads the clock takes
  the current instant `now : GoTime` as an explicit argument.
* Go's `(value, error)` returns become `Except Err` (constructors) or
  `Option Err` / products (methods that also hand back the receiver).
* `context.Context` carries no information used by this code; it is
  modelled as `Ctx := Unit` to keep the signatures faithful.
-/

/-- Go `context.Context`, unused by the modelled operations. -/
abbrev Ctx := Unit

/-- Go `time.Time` as an instant: nanoseconds since the zero time
0001-01-01T00:00:00 UTC.  The Go zero value is `0`. -/
abbrev GoTime := Int

/-- `uuid.UUID` as a 128-bit number; `uuid.UUID\x7b\x7d` (the nil UUID) is `0`. -/
abbrev UUID := Nat

/-- Modelled from the spec: `User` — an authenticated principal with
"Email (non-empty, required), LastName, FirstName, FullName,
HostedDomain, PictureURL, ProfileLink" (spec §3). -/
structure User where
  Email : String
  LastName : String
  FirstName : String
  FullName : String
  HostedDomain : String
  PictureURL : String
  ProfileLink : String
deriving DecidableEq, Repr

/-- Modelled from the spec: User "Validity requires Email, LastName,
FirstName, FullName all non-empty" (spec §3); the method `user.IsValid()`
is named by the test file but its code is not staged. -/
def User.IsValid (u : User) : Bool :=
  u.Email ≠ "" && u.LastName ≠ "" && u.FirstName ≠ "" && u.FullName ≠ ""

/-- Error kinds used by this core (spec §7 taxonomy). -/
inductive ErrKind where
  | Validation
  | NotFound
  | Internal
deriving DecidableEq, Repr

/-- Modelled from the spec: the structured "kind+parameter+message" error
shape (spec §6), extended with the code slot that `SetReleased` fills
("code \"invalid_date_format\"", spec §4.2). -/
structure Err where
  kind : ErrKind
  code : String
  param : String
  msg : String
deriving DecidableEq, Repr

/-- Modelled from the spec: the "MissingField-style message" (spec §4.3)
used by the `errs` collaborator; `errs.MissingField(f)` renders as
`f` followed by " is required". -/
def MissingField (f : String) : String := f ++ " is required"

/- ---------------------------------------------------------------------
RFC3339 date-time parsing (the `time.Parse(time.RFC3339, s)`
collaborator used by `SetReleased`, spec §4.2: "parses the input as an
RFC3339 date-time string").  The accepted shape is
YYYY-MM-DDTHH:MM:SS[.fraction](Z|±HH:MM), with calendar-valid fields;
the result is the instant in nanoseconds since 0001-01-01T00:00:00 UTC.
--------------------------------------------------------------------- -/

/-- Numeric value of a decimal digit character. -/
def digitVal (c : Char) : Nat := c.toNat - 48

/-- Gregorian leap year. -/
def isLeap (y : Nat) : Bool := (y % 4 == 0 && y % 100 != 0) || y % 400 == 0

/-- Days in month `m` of year `y` (months 1..12). -/
def daysInMonth (y m : Nat) : Nat :=
  if m = 2 then (if isLeap y then 29 else 28)
  else if m = 4 ∨ m = 6 ∨ m = 9 ∨ m = 11 then 30
  else 31

/-- Days from 0001-01-01 to January 1 of year `y` (proleptic Gregorian). -/
def daysBeforeYear (y : Nat) : Nat :=
  let n := y - 1
  365 * n + n / 4 - n / 100 + n / 400

/-- Days from January 1 to the first of month `m` in year `y`. -/
def daysBeforeMonth (y m : Nat) : Nat :=
  let base :=
    match m with
    | 1 => 0 | 2 => 31 | 3 => 59 | 4 => 90 | 5 => 120 | 6 => 151
    | 7 => 181 | 8 => 212 | 9 => 243 | 10 => 273 | 11 => 304 | _ => 334
  if 3 ≤ m && isLeap y then base + 1 else base

/-- Days from 0001-01-01 to the calendar date `y-m-d`. -/
def dateToDays (y m d : Nat) : Nat :=
  daysBeforeYear y + daysBeforeMonth y m + (d - 1)

/-- The instant of midnight UTC on `y-m-d`, in nanoseconds since the
zero time (used for the fixed dates of the mock datastore). -/
def utcDate (y m d : Nat) : GoTime :=
  ((dateToDays y m d : Int) * 86400) * 1000000000

/-- Nanoseconds denoted by a fractional-second digit string (at most the
first nine digits are significant). -/
def fracNanos (ds : List Char) : Nat :=
  let d9 := ds.take 9
  (d9.foldl (fun a c => 10 * a + digitVal c) 0) * 10 ^ (9 - d9.length)

/-- Parse the numeric-offset tail of an RFC3339 string: `Z` or `±HH:MM`,
returning the offset east of UTC in seconds.  Must consume the input. -/
def parseOffset : List Char → Option Int
  | ['Z'] => some 0
  | [sgn, h1, h2, ':', m1, m2] =>
    if (sgn == '+' || sgn == '-') && h1.isDigit && h2.isDigit
        && m1.isDigit && m2.isDigit then
      let hh := 10 * digitVal h1 + digitVal h2
      let mm := 10 * digitVal m1 + digitVal m2
      if hh ≤ 23 ∧ mm ≤ 59 then
        some (if sgn == '+' then ((hh * 3600 + mm * 60 : Nat) : Int)
              else -((hh * 3600 + mm * 60 : Nat) : Int))
      else none
    else none
  | _ => none

/-- Parse the optional fractional seconds and then the offset; returns
(nanoseconds, offset seconds). -/
def parseFracOffset : List Char → Option (Nat × Int)
  | '.' :: rest =>
    let ds := rest.takeWhile Char.isDigit
    if ds.isEmpty then none
    else
      match parseOffset (rest.drop ds.length) with
      | some off => some (fracNanos ds, off)
      | none => none
  | cs =>
    match parseOffset cs with
    | some off => some (0, off)
    | none => none

/-- RFC3339 date-time parsing, the shape Go's
`time.Parse(time.RFC3339, s)` accepts: on success the instant in
nanoseconds since the zero time, `none` on any malformed input. -/
def parseRFC3339 (s : String) : Option Int :=
  match s.data with
  | y1 :: y2 :: y3 :: y4 :: '-' :: u1 :: u2 :: '-' :: d1 :: d2 :: 'T' ::
      h1 :: h2 :: ':' :: n1 :: n2 :: ':' :: c1 :: c2 :: rest =>
    if y1.isDigit && y2.isDigit && y3.isDigit && y4.isDigit
        && u1.isDigit && u2.isDigit && d1.isDigit && d2.isDigit
        && h1.isDigit && h2.isDigit && n1.isDigit && n2.isDigit
        && c1.isDigit && c2.isDigit then
      let year := 1000 * digitVal y1 + 100 * digitVal y2 + 10 * digitVal y3 + digitVal y4
      let month := 10 * digitVal u1 + digitVal u2
      let day := 10 * digitVal d1 + digitVal d2
      let hour := 10 * digitVal h1 + digitVal h2
      let minute := 10 * digitVal n1 + digitVal n2
      let second := 10 * digitVal c1 + digitVal c2
      if 1 ≤ month ∧ month ≤ 12 ∧ 1 ≤ day ∧ day ≤ daysInMonth year month
          ∧ hour ≤ 23 ∧ minute ≤ 59 ∧ second ≤ 59 then
        match parseFracOffset rest with
        | some (nanos, off) =>
          some (((dateToDays year month day : Int) * 86400
                  + ((hour * 3600 + minute * 60 + second : Nat) : Int) - off)
                 * 1000000000 + (nanos : Int))
        | none => none
      else none
    else none
  | _ => none

/- ---------------------------------------------------------------------
The Movie entity.
--------------------------------------------------------------------- -/

/-- Modelled from the spec: the `Movie` domain entity (spec §3), with the
field set the staged files exercise: identity (`ID`, `ExternalID`),
attributes (`Title`, `Year`, `Rated`, `Released`, `RunTime`, `Director`,
`Writer`) and audit metadata (`CreateUser`/`UpdateUser`,
`CreateTime`/`UpdateTime`, and the `CreateTimestamp` slot the mock
datastore fills). -/
structure Movie where
  ID : UUID
  ExternalID : String
  Title : String
  Year : Int
  Rated : String
  Released : GoTime
  RunTime : Int
  Director : String
  Writer : String
  CreateUser : User
  UpdateUser : User
  CreateTime : GoTime
  UpdateTime : GoTime
  CreateTimestamp : GoTime
deriving DecidableEq, Repr

/-- The zero-valued `Movie` (Go `new(movie.Movie)`). -/
def zeroMovie : Movie :=
  { ID := 0, ExternalID := "", Title := "", Year := 0, Rated := "",
    Released := 0, RunTime := 0, Director := "", Writer := "",
    CreateUser := { Email := "", LastName := "", FirstName := "", FullName := "",
                    HostedDomain := "", PictureURL := "", ProfileLink := "" },
    UpdateUser := { Email := "", LastName := "", FirstName := "", FullName := "",
                    HostedDomain := "", PictureURL := "", ProfileLink := "" },
    CreateTime := 0, UpdateTime := 0, CreateTimestamp := 0 }

/-- Modelled from the spec: `NewMovie(id, externalID, createUser)`
(spec §4.1).  Fails with a Validation error, parameter "ID", if `id` is
zero; with the same error if `externalID` is empty (the documented
naming inconsistency, spec §9); with parameter "User", message
"User is invalid", if `createUser` is invalid.  On success seeds
`CreateUser`/`UpdateUser` with `createUser` and
`CreateTime`/`UpdateTime` with now (UTC), all other fields zero. -/
def NewMovie (id : UUID) (externalID : String) (createUser : User)
    (now : GoTime) : Except Err Movie :=
  if id = 0 then
    .error { kind := .Validation, code := "", param := "ID", msg := MissingField "ID" }
  else if externalID = "" then
    .error { kind := .Validation, code := "", param := "ID", msg := MissingField "ID" }
  else if User.IsValid createUser then
    .ok { zeroMovie with
            ID := id, ExternalID := externalID,
            CreateUser := createUser, UpdateUser := createUser,
            CreateTime := now, UpdateTime := now }
  else
    .error { kind := .Validation, code := "", param := "User", msg := "User is invalid" }

/-- Modelled from the spec: `SetExternalID(string)` mutates exactly the
`ExternalID` field and returns the Movie (spec §4.2). -/
def Movie.SetExternalID (m : Movie) (v : String) : Movie := { m with ExternalID := v }

/-- Modelled from the spec: `SetTitle(string)` (spec §4.2). -/
def Movie.SetTitle (m : Movie) (v : String) : Movie := { m with Title := v }

/-- Modelled from the spec: `SetRated(string)` (spec §4.2). -/
def Movie.SetRated (m : Movie) (v : String) : Movie := { m with Rated := v }

/-- Modelled from the spec: `SetRunTime(int)` (spec §4.2). -/
def Movie.SetRunTime (m : Movie) (v : Int) : Movie := { m with RunTime := v }

/-- Modelled from the spec: `SetDirector(string)` (spec §4.2). -/
def Movie.SetDirector (m : Movie) (v : String) : Movie := { m with Director := v }

/-- Modelled from the spec: `SetWriter(string)` (spec §4.2). -/
def Movie.SetWriter (m : Movie) (v : String) : Movie := { m with Writer := v }

/-- Modelled from the spec: `SetUpdateUser(User)` (spec §4.2). -/
def Movie.SetUpdateUser (m : Movie) (v : User) : Movie := { m with UpdateUser := v }

/-- Modelled from the spec: `SetUpdateTime()` sets `UpdateTime` to the
current instant in UTC (spec §4.2); the clock read is the explicit
`now` argument. -/
def Movie.SetUpdateTime (m : Movie) (now : GoTime) : Movie := { m with UpdateTime := now }

/-- Modelled from the spec: `SetReleased(string) → (Movie, error)`
(spec §4.2): parses the input as RFC3339; on parse failure returns the
unchanged receiver and a Validation error, code "invalid_date_format",
parameter "release_date", whose message wraps the parse error; on
success sets `Released` to the parsed instant and returns the Movie
with no error. -/
def Movie.SetReleased (m : Movie) (s : String) : Movie × Option Err :=
  match parseRFC3339 s with
  | none =>
    (m, some { kind := .Validation, code := "invalid_date_format",
               param := "release_date",
               msg := "cannot parse " ++ s ++ " as RFC3339" })
  | some t => ({ m with Released := t }, none)

/-- Modelled from the spec: `IsValid() → error` (spec §4.3): checks, in
order, Title non-empty, Rated non-empty, Released non-zero, RunTime > 0,
Director non-empty, Writer non-empty, ExternalID non-empty; returns a
Validation error on the first failing field with the field-specific
parameter names and messages the staged tests expect; `none` stands for
Go's nil error. -/
def Movie.IsValid (m : Movie) : Option Err :=
  if m.Title = "" then
    some { kind := .Validation, code := "", param := "title", msg := MissingField "title" }
  else if m.Rated = "" then
    some { kind := .Validation, code := "", param := "rated", msg := MissingField "Rated" }
  else if m.Released = 0 then
    some { kind := .Validation, code := "", param := "release_date",
           msg := "Released must have a value" }
  else if m.RunTime ≤ 0 then
    some { kind := .Validation, code := "", param := "run_time",
           msg := "Run time must be greater than zero" }
  else if m.Director = "" then
    some { kind := .Validation, code := "", param := "director", msg := MissingField "Director" }
  else if m.Writer = "" then
    some { kind := .Validation, code := "", param := "writer", msg := MissingField "Writer" }
  else if m.ExternalID = "" then
    some { kind := .Validation, code := "", param := "extlID", msg := MissingField "extlID" }
  else
    none

/- ---------------------------------------------------------------------
The mock datastore (translated from
src/datastore/movieDatastore/mockMovieDatastore.go) and the handler
test mocks (translated from src/handler/movieHandler_test.go).
--------------------------------------------------------------------- -/

/-- `MockTx.Create` is a mock for creating a record: it ignores its
arguments and returns nil. -/
def MockTx.Create (ctx : Ctx) (m : Movie) : Option Err := none

/-- `MockTx.Update` is a mock for updating a record: it ignores its
arguments and returns nil. -/
def MockTx.Update (ctx : Ctx) (m : Movie) : Option Err := none

/-- `MockTx.Delete` mocks removing the Movie record: it ignores its
arguments and returns nil. -/
def MockTx.Delete (ctx : Ctx) (m : Movie) : Option Err := none

/-- `MockDB.FindByID` returns a fixed Movie struct to populate the
response, with `ExternalID` set to the argument and `CreateTimestamp`
set to `time.Now()` (the explicit `now` argument). -/
def MockDB.FindByID (ctx : Ctx) (extlID : String) (now : GoTime) : Except Err Movie :=
  .ok { zeroMovie with
          ExternalID := extlID,
          Title := "The Thing",
          Year := 1982,
          Rated := "R",
          Released := utcDate 1982 6 25,
          RunTime := 109,
          Director := "John Carpenter",
          Writer := "Bill Lancaster",
          CreateTimestamp := now }

/-- `mockTransactor.Create` (handler tests): returns nil. -/
def mockTransactor.Create (ctx : Ctx) (m : Movie) : Option Err := none

/-- `mockTransactor.Update` (handler tests): returns nil. -/
def mockTransactor.Update (ctx : Ctx) (m : Movie) : Option Err := none

/-- `mockTransactor.Delete` (handler tests): returns nil. -/
def mockTransactor.Delete (ctx : Ctx) (m : Movie) : Option Err := none

/-- `mockSelector.FindByID` (handler tests): ignores the external-ID
argument and returns a fixed Movie with nil error; the create/update
user comes from the `usertest.NewUser` collaborator, passed in as `u`. -/
def mockSelector.FindByID (u : User) (ctx : Ctx) (s : String) : Except Err Movie :=
  .ok { ID := 0xf118f4bbb3454517b463f237630b1a07,
        ExternalID := "kCBqDtyAkZIfdWjRDXQG",
        Title := "Repo Man",
        Year := 0,
        Rated := "R",
        Released := utcDate 1984 3 2,
        RunTime := 92,
        Director := "Alex Cox",
        Writer := "Alex Cox",
        CreateUser := u,
        UpdateUser := u,
        CreateTime := utcDate 2008 1 8 + ((6 * 3600 + 54 * 60 : Nat) : Int) * 1000000000,
        UpdateTime := utcDate 2008 1 8 + ((6 * 3600 + 54 * 60 : Nat) : Int) * 1000000000,
        CreateTimestamp := 0 }

/- ---------------------------------------------------------------------
Concrete data for witnesses and counterexamples.
--------------------------------------------------------------------- -/

/-- The valid user of the movie tests (`newValidUser`). -/
def validUser0 : User :=
  { Email := "foo@bar.com", LastName := "Bar", FirstName := "Foo",
    FullName := "Foo Bar", HostedDomain := "example.com",
    PictureURL := "example.com/profile.png", ProfileLink := "example.com/FooBar" }

/-- A fully-populated, valid Movie (the shape of the tests' "Valid
Movie" case): every validated field non-zero. -/
def movie7 : Movie :=
  { ID := 7, ExternalID := "ExternalID", Title := "API Movie", Year := 0,
    Rated := "R", Released := utcDate 1996 12 19, RunTime := 19,
    Director := "Director Foo", Writer := "Writer Foo",
    CreateUser := validUser0, UpdateUser := validUser0,
    CreateTime := 1, UpdateTime := 1, CreateTimestamp := 0 }

/- ---------------------------------------------------------------------
Theorems for the claims.
--------------------------------------------------------------------- -/

/-- C1: for every Movie m, `IsValid` returns nil iff Title, Rated,
Director, Writer and ExternalID are non-empty, Released is non-zero and
RunTime > 0; when it returns an error, the error is a Validation error
naming the first failing field in the fixed check order Title, Rated,
Released, RunTime, Director, Writer, ExternalID, with parameter names
title, rated, release_date, run_time, director, writer, extlID and the
messages "Released must have a value" and
"Run time must be greater than zero" for the two semantic checks. -/
theorem C1_IsValid_characterization (m : Movie) :
    (m.IsValid = none ↔
      m.Title ≠ "" ∧ m.Rated ≠ "" ∧ m.Director ≠ "" ∧ m.Writer ≠ ""
        ∧ m.ExternalID ≠ "" ∧ m.Released ≠ 0 ∧ m.RunTime > 0)
  ∧ (m.Title = "" →
      m.IsValid = some { kind := .Validation, code := "", param := "title",
                         msg := MissingField "title" })
  ∧ (m.Title ≠ "" → m.Rated = "" →
      m.IsValid = some { kind := .Validation, code := "", param := "rated",
                         msg := MissingField "Rated" })
  ∧ (m.Title ≠ "" → m.Rated ≠ "" → m.Released = 0 →
      m.IsValid = some { kind := .Validation, code := "", param := "release_date",
                         msg := "Released must have a value" })
  ∧ (m.Title ≠ "" → m.Rated ≠ "" → m.Released ≠ 0 → ¬ m.RunTime > 0 →
      m.IsValid = some { kind := .Validation, code := "", param := "run_time",
                         msg := "Run time must be greater than zero" })
  ∧ (m.Title ≠ "" → m.Rated ≠ "" → m.Released ≠ 0 → m.RunTime > 0 → m.Director = "" →
      m.IsValid = some { kind := .Validation, code := "", param := "director",
                         msg := MissingField "Director" })
  ∧ (m.Title ≠ "" → m.Rated ≠ "" → m.Released ≠ 0 → m.RunTime > 0 → m.Director ≠ "" →
      m.Writer = "" →
      m.IsValid = some { kind := .Validation, code := "", param := "writer",
                         msg := MissingField "Writer" })
  ∧ (m.Title ≠ "" → m.Rated ≠ "" → m.Released ≠ 0 → m.RunTime > 0 → m.Director ≠ "" →
      m.Writer ≠ "" → m.ExternalID = "" →
      m.IsValid = some { kind := .Validation, code := "", param := "extlID",
                         msg := MissingField "extlID" }) := by
  unfold Movie.IsValid
  split_ifs with h1 h2 h3 h4 h5 h6 h7 <;> simp_all

/-- C2: for every id, every valid createUser and the empty externalID,
`NewMovie id "" createUser` fails with a Validation error whose
parameter is "ID" (not a parameter naming the external ID). -/
theorem C2_NewMovie_emptyExternalID (id : UUID) (u : User) (now : GoTime)
    (h : User.IsValid u = true) :
    NewMovie id "" u now =
      .error { kind := .Validation, code := "", param := "ID",
               msg := MissingField "ID" } := by
  unfold NewMovie
  split_ifs <;> simp_all

/-- C2 witness: the concrete instance at id 7, the tests' valid user and
instant 0. -/
theorem C2_witness :
    User.IsValid validUser0 = true ∧
    NewMovie 7 "" validUser0 0 =
      .error { kind := .Validation, code := "", param := "ID",
               msg := MissingField "ID" } :=
  ⟨rfl, C2_NewMovie_emptyExternalID 7 validUser0 0 rfl⟩

/-- C3 counterexample: with a non-zero id and a valid user, the
empty-externalID failure of `NewMovie` names parameter "ID" — not the
program's parameter for the external ID, which `IsValid` spells
"extlID". -/
theorem C3_counterexample :
    NewMovie 7 "" validUser0 0 =
      .error { kind := .Validation, code := "", param := "ID",
               msg := MissingField "ID" }
  ∧ ({ movie7 with ExternalID := "" } : Movie).IsValid =
      some { kind := .Validation, code := "", param := "extlID",
             msg := MissingField "extlID" }
  ∧ ("ID" : String) ≠ "extlID" :=
  ⟨rfl, rfl, by decide⟩

/-- C3 (amended): NewMovie with a zero id, with an empty externalID, or
with an invalid createUser each fail with a Validation error: the
zero-id case names "ID", the invalid-user case names "User" with
message "User is invalid", and the empty-externalID case also names
"ID" (the documented naming inconsistency), not an external-ID-specific
parameter. -/
theorem C3_NewMovie_failure_errors (id : UUID) (externalID : String) (u : User)
    (now : GoTime) :
    (id = 0 →
      NewMovie id externalID u now =
        .error { kind := .Validation, code := "", param := "ID",
                 msg := MissingField "ID" })
  ∧ (NewMovie id "" u now =
      .error { kind := .Validation, code := "", param := "ID",
               msg := MissingField "ID" })
  ∧ (id ≠ 0 → externalID ≠ "" → User.IsValid u = false →
      NewMovie id externalID u now =
        .error { kind := .Validation, code := "", param := "User",
                 msg := "User is invalid" }) := by
  refine ⟨?_, ?_, ?_⟩ <;> intros <;> unfold NewMovie <;> split_ifs <;> simp_all

/-- C4: for every non-zero id, non-empty externalID and valid
createUser, `NewMovie` succeeds and returns a Movie whose ID,
ExternalID are the arguments, CreateUser = UpdateUser = createUser,
CreateTime = UpdateTime = the current instant, and all remaining fields
at their zero values. -/
theorem C4_NewMovie_success (id : UUID) (externalID : String) (u : User)
    (now : GoTime) (hid : id ≠ 0) (hex : externalID ≠ "")
    (hu : User.IsValid u = true) :
    NewMovie id externalID u now =
      .ok { zeroMovie with
              ID := id, ExternalID := externalID,
              CreateUser := u, UpdateUser := u,
              CreateTime := now, UpdateTime := now } := by
  unfold NewMovie
  split_ifs <;> simp_all

/-- C4 witness: the concrete instance at id 7, externalID "extID", the
tests' valid user and instant 5. -/
theorem C4_witness :
    (7 : UUID) ≠ 0 ∧ ("extID" : String) ≠ "" ∧ User.IsValid validUser0 = true ∧
    NewMovie 7 "extID" validUser0 5 =
      .ok { zeroMovie with
              ID := 7, ExternalID := "extID",
              CreateUser := validUser0, UpdateUser := validUser0,
              CreateTime := 5, UpdateTime := 5 } :=
  ⟨by decide, by decide, rfl,
   C4_NewMovie_success 7 "extID" validUser0 5 (by decide) (by decide) rfl⟩

/-- C5: for every Movie m and string s, `SetReleased s` parses s as an
RFC3339 date-time: on parse failure it returns the unchanged Movie
together with a Validation error, code "invalid_date_format", parameter
"release_date", wrapping the parse error; on success it sets Released
to the parsed instant and returns the Movie with a nil error. -/
theorem C5_SetReleased_spec (m : Movie) (s : String) :
    (parseRFC3339 s = none →
      m.SetReleased s =
        (m, some { kind := .Validation, code := "invalid_date_format",
                   param := "release_date",
                   msg := "cannot parse " ++ s ++ " as RFC3339" }))
  ∧ (∀ t, parseRFC3339 s = some t →
      m.SetReleased s = ({ m with Released := t }, none)) := by
  constructor
  · intro h
    unfold Movie.SetReleased
    rw [h]
  · intro t h
    unfold Movie.SetReleased
    rw [h]

/-- Sanity: the RFC3339 string of the IsValid tests parses. -/
theorem parseRFC3339_accepts_test_date :
    (parseRFC3339 "1996-12-19T16:39:57-08:00").isSome = true := rfl

/-- Sanity: the string of TestSetReleasedOk parses. -/
theorem parseRFC3339_accepts_utc_date :
    (parseRFC3339 "1984-01-02T15:04:05Z").isSome = true := rfl

/-- Sanity: the malformed string of TestSetReleasedWrong is rejected. -/
theorem parseRFC3339_rejects_wrong_time :
    parseRFC3339 "wrong-time" = none := rfl

/-- C6: each of SetExternalID, SetTitle, SetRated, SetRunTime,
SetDirector, SetWriter and SetUpdateUser sets exactly its own target
field and leaves every other field (including UpdateTime) unchanged,
returning the mutated Movie; no validation happens at setter time (the
setters are total). -/
theorem C6_setters_frame (m : Movie) (s : String) (n : Int) (u : User) :
    m.SetExternalID s = { m with ExternalID := s }
  ∧ m.SetTitle s = { m with Title := s }
  ∧ m.SetRated s = { m with Rated := s }
  ∧ m.SetRunTime n = { m with RunTime := n }
  ∧ m.SetDirector s = { m with Director := s }
  ∧ m.SetWriter s = { m with Writer := s }
  ∧ m.SetUpdateUser u = { m with UpdateUser := u } :=
  ⟨rfl, rfl, rfl, rfl, rfl, rfl, rfl⟩

/-- C7 counterexample: a fully-populated valid Movie (Title
"API Movie"), persisted through `MockTx.Create`, is retrieved by
`MockDB.FindByID` with Title "The Thing": the non-timestamp,
non-ExternalID field Title does not round-trip. -/
theorem C7_counterexample :
    movie7.IsValid = none
  ∧ MockTx.Create () movie7 = none
  ∧ MockDB.FindByID () movie7.ExternalID 0 =
      .ok { zeroMovie with
              ExternalID := "ExternalID", Title := "The Thing", Year := 1982,
              Rated := "R", Released := utcDate 1982 6 25, RunTime := 109,
              Director := "John Carpenter", Writer := "Bill Lancaster",
              CreateTimestamp := 0 }
  ∧ ("The Thing" : String) ≠ movie7.Title :=
  ⟨rfl, rfl, rfl, by decide⟩

/-- C7 (amended): `MockTx.Create` returns nil without storing anything,
and `MockDB.FindByID m.ExternalID` returns a Movie agreeing with m in
ExternalID while every remaining non-timestamp field takes the mock's
fixed values, independent of m; round-trip equality beyond ExternalID
holds only when m already carries those fixed values. -/
theorem C7_roundtrip_mock (ctx : Ctx) (m : Movie) (now : GoTime) :
    MockTx.Create ctx m = none
  ∧ MockDB.FindByID ctx m.ExternalID now =
      .ok { zeroMovie with
              ExternalID := m.ExternalID, Title := "The Thing", Year := 1982,
              Rated := "R", Released := utcDate 1982 6 25, RunTime := 109,
              Director := "John Carpenter", Writer := "Bill Lancaster",
              CreateTimestamp := now } :=
  ⟨rfl, rfl⟩

/-- C8 counterexample: for the externalID "no-such-row" — which no row
matches, the mock store retaining no rows at all — `MockDB.FindByID`
still succeeds with a fabricated Movie instead of failing with a
Not-Found-kind error. -/
theorem C8_counterexample :
    MockDB.FindByID () "no-such-row" 0 =
      .ok { zeroMovie with
              ExternalID := "no-such-row", Title := "The Thing", Year := 1982,
              Rated := "R", Released := utcDate 1982 6 25, RunTime := 109,
              Director := "John Carpenter", Writer := "Bill Lancaster",
              CreateTimestamp := 0 } := rfl

/-- C8 (amended): for every context and externalID — matching row or
not — `MockDB.FindByID` returns a nil error and a fabricated Movie
whose ExternalID equals the argument, never a Not-Found-kind error; the
handler-test `mockSelector.FindByID` likewise always succeeds, with a
result independent of the externalID argument. -/
theorem C8_FindByID_never_not_found (ctx : Ctx) (extlID : String) (now : GoTime)
    (u : User) (s : String) :
    MockDB.FindByID ctx extlID now =
      .ok { zeroMovie with
              ExternalID := extlID, Title := "The Thing", Year := 1982,
              Rated := "R", Released := utcDate 1982 6 25, RunTime := 109,
              Director := "John Carpenter", Writer := "Bill Lancaster",
              CreateTimestamp := now }
  ∧ mockSelector.FindByID u ctx s = mockSelector.FindByID u ctx ""
  ∧ (mockSelector.FindByID u ctx s).isOk = true :=
  ⟨rfl, rfl, rfl⟩

/-- C9 counterexample: `movie7`'s ExternalID matches no existing row
(the mocks retain no rows), yet `MockTx.Update`, `MockTx.Delete` and
the handler-test transactor all return nil — they silently succeed
instead of failing with a Not-Found-kind error. -/
theorem C9_counterexample :
    MockTx.Update () movie7 = none
  ∧ MockTx.Delete () movie7 = none
  ∧ mockTransactor.Update () movie7 = none
  ∧ mockTransactor.Delete () movie7 = none :=
  ⟨rfl, rfl, rfl, rfl⟩

/-- C9 (amended): for every context and Movie — in particular one whose
ExternalID matches no existing row — the mock `Update` and `Delete`
return nil: they silently succeed and never produce a Not-Found-kind
error. -/
theorem C9_update_delete_silently_succeed (ctx : Ctx) (m : Movie) :
    MockTx.Update ctx m = none
  ∧ MockTx.Delete ctx m = none
  ∧ mockTransactor.Update ctx m = none
  ∧ mockTransactor.Delete ctx m = none :=
  ⟨rfl, rfl, rfl, rfl⟩

/-- C10: for every context and externalID (the empty string included),
`MockDB.FindByID` returns a nil error and a Movie whose ExternalID
equals the argument verbatim and whose remaining fields are the fixed
values Title "The Thing", Year 1982, Rated "R", Released 1982-06-25
UTC, RunTime 109, Director "John Carpenter", Writer "Bill Lancaster";
it never returns an error, and two calls with the same externalID
differ at most in CreateTimestamp. -/
theorem C10_MockDB_FindByID_spec (ctx : Ctx) (extlID : String) (n1 n2 : GoTime) :
    MockDB.FindByID ctx extlID n1 =
      .ok { zeroMovie with
              ExternalID := extlID, Title := "The Thing", Year := 1982,
              Rated := "R", Released := utcDate 1982 6 25, RunTime := 109,
              Director := "John Carpenter", Writer := "Bill Lancaster",
              CreateTimestamp := n1 }
  ∧ (∀ r1 r2, MockDB.FindByID ctx extlID n1 = .ok r1 →
      MockDB.FindByID ctx extlID n2 = .ok r2 →
      r2 = { r1 with CreateTimestamp := n2 }) := by
  refine ⟨rfl, ?_⟩
  intro r1 r2 h1 h2
  unfold MockDB.FindByID at h1 h2
  injection h1 with e1
  injection h2 with e2
  subst e1
  subst e2
  rfl
